import Mathlib

/-!
Verification development for the tick engine of a top-down shooter
(src/services/engine.ts, src/constants.ts, src/types.ts).

The embedding is shallow: TypeScript records become Lean structures, the
numeric type is the rationals (JS numbers are used here only with +, -, *,
/ and comparisons on the modelled paths), and each stage of the per-tick
update function updateGame is a Lean function transcribed from the
corresponding lines of the source.  Randomness (Math.random draws) and the
trigonometric direction of a fired bullet are passed in as explicit
parameters, so every definition is executable.

The source compares Euclidean distances with Math.sqrt; we compare squared
distances instead.  For nonnegative radii the two are equivalent because
squaring is strictly monotone on nonnegatives; the helper predicates
distLt and distGt below are exact translations of dist(a,b) < r and
dist(a,b) > r for every rational r, including negative r (where the
source comparison against a nonnegative square root is constantly false,
resp. true).
-/

namespace TacticalOps

/-- Game modes, from src/types.ts. -/
inductive GameMode where
  | MENU | TDM | DOMINATION | FFA | HARDPOINT | GUN_GAME | BATTLE_ROYALE
  deriving DecidableEq, Repr

/-- Teams, from src/types.ts. -/
inductive Team where
  | NONE | ALLIED | AXIS
  deriving DecidableEq, Repr

/-- Weapon identifiers, from src/types.ts. -/
inductive WeaponType where
  | KNIFE | PISTOL | SMG | PDW | SHOTGUN | AUTO_SHOTGUN
  | RIFLE | BURST_RIFLE | LMG | DMR | SNIPER
  deriving DecidableEq, Repr

/-- Difficulty levels, from src/types.ts. -/
inductive Difficulty where
  | RECRUIT | VETERAN | ELITE
  deriving DecidableEq, Repr

/-- Obstacle categories, from src/types.ts. -/
inductive ObstacleType where
  | WALL | COVER_HALF | COVER_FULL | WINDOW
  deriving DecidableEq, Repr

/-- Battle royale zone phases, from src/types.ts. -/
inductive ZoneState where
  | WAITING | SHRINKING
  deriving DecidableEq, Repr

/-- Two dimensional vector, from src/types.ts. -/
structure Vector2 where
  x : ℚ
  y : ℚ
  deriving DecidableEq, Repr

/-- Axis aligned rectangular obstacle, from src/types.ts. -/
structure Obstacle where
  x : ℚ
  y : ℚ
  w : ℚ
  h : ℚ
  type : ObstacleType
  deriving DecidableEq, Repr

/-- A circle as consumed by checkRectCollide in src/services/engine.ts. -/
structure Circle where
  x : ℚ
  y : ℚ
  r : ℚ
  deriving DecidableEq, Repr

/-- Numeric fields of WeaponStats from src/types.ts (name, description,
className and color are presentational strings not used by the engine
logic modelled here). -/
structure WeaponStats where
  damage : ℚ
  fireRate : ℚ
  range : ℚ
  accuracy : ℚ
  magSize : Int
  reloadTime : ℚ
  deriving DecidableEq, Repr

/-- Player record, from src/types.ts (the optional AI fields target and
state only steer bot navigation, which is outside the modelled claims). -/
structure Player where
  id : String
  pos : Vector2
  radius : ℚ
  active : Bool
  team : Team
  angle : ℚ
  health : ℚ
  maxHealth : ℚ
  speed : ℚ
  weapon : WeaponType
  ammo : Int
  isReloading : Bool
  reloadTimer : ℚ
  lastShotTime : ℚ
  kills : Nat
  deaths : Nat
  isBot : Bool
  deriving DecidableEq, Repr

/-- Bullet record, from src/types.ts (the id and color strings are
presentational and omitted). -/
structure Bullet where
  pos : Vector2
  radius : ℚ
  active : Bool
  velocity : Vector2
  damage : ℚ
  team : Team
  ownerId : String
  distanceTraveled : ℚ
  maxDistance : ℚ
  deriving DecidableEq, Repr

/-- Battle royale zone, from src/types.ts. -/
structure Zone where
  x : ℚ
  y : ℚ
  radius : ℚ
  targetRadius : ℚ
  shrinkTimer : ℚ
  state : ZoneState
  damagePerTick : ℚ
  deriving DecidableEq, Repr

/-- Control point, from src/types.ts. -/
structure ControlPoint where
  id : String
  pos : Vector2
  radius : ℚ
  active : Bool
  team : Team
  captureProgress : ℚ
  name : String
  deriving DecidableEq, Repr

/-- PLAYER_RADIUS from src/constants.ts. -/
def PLAYER_RADIUS : ℚ := 16

/-- PLAYER_SPEED from src/constants.ts. -/
def PLAYER_SPEED : ℚ := 5

/-- The WEAPONS table from src/constants.ts, numeric fields only. -/
def WEAPONS : WeaponType → WeaponStats
  | WeaponType.KNIFE =>
      { damage := 100, fireRate := 400, range := 50, accuracy := 1/10,
        magSize := 100, reloadTime := 0 }
  | WeaponType.PISTOL =>
      { damage := 45, fireRate := 250, range := 600, accuracy := 1/20,
        magSize := 7, reloadTime := 1200 }
  | WeaponType.SMG =>
      { damage := 18, fireRate := 60, range := 500, accuracy := 3/20,
        magSize := 30, reloadTime := 1500 }
  | WeaponType.PDW =>
      { damage := 14, fireRate := 40, range := 400, accuracy := 1/5,
        magSize := 50, reloadTime := 2200 }
  | WeaponType.SHOTGUN =>
      { damage := 18, fireRate := 900, range := 250, accuracy := 3/10,
        magSize := 8, reloadTime := 2500 }
  | WeaponType.AUTO_SHOTGUN =>
      { damage := 12, fireRate := 200, range := 200, accuracy := 2/5,
        magSize := 20, reloadTime := 3000 }
  | WeaponType.RIFLE =>
      { damage := 25, fireRate := 100, range := 800, accuracy := 1/20,
        magSize := 30, reloadTime := 2000 }
  | WeaponType.BURST_RIFLE =>
      { damage := 28, fireRate := 80, range := 900, accuracy := 1/50,
        magSize := 30, reloadTime := 2000 }
  | WeaponType.LMG =>
      { damage := 22, fireRate := 90, range := 1000, accuracy := 3/25,
        magSize := 100, reloadTime := 4500 }
  | WeaponType.DMR =>
      { damage := 48, fireRate := 300, range := 1200, accuracy := 1/100,
        magSize := 20, reloadTime := 2500 }
  | WeaponType.SNIPER =>
      { damage := 100, fireRate := 1200, range := 1800, accuracy := 0,
        magSize := 5, reloadTime := 3000 }

/-- GUN_GAME_ORDER from src/constants.ts. -/
def GUN_GAME_ORDER : List WeaponType :=
  [WeaponType.PISTOL, WeaponType.SMG, WeaponType.PDW, WeaponType.SHOTGUN,
   WeaponType.AUTO_SHOTGUN, WeaponType.RIFLE, WeaponType.BURST_RIFLE,
   WeaponType.LMG, WeaponType.DMR, WeaponType.SNIPER, WeaponType.KNIFE]

/-- Squared Euclidean distance; the source helper dist in
src/services/engine.ts is its square root. -/
def distSq (v1 v2 : Vector2) : ℚ :=
  (v1.x - v2.x) ^ 2 + (v1.y - v2.y) ^ 2

/-- Exact translation of the source comparison dist(a, b) < r: for r
nonnegative it is equivalent to comparing squares, and for negative r the
source comparison is false since dist is a nonnegative square root. -/
def distLt (a b : Vector2) (r : ℚ) : Prop :=
  0 ≤ r ∧ distSq a b < r ^ 2

instance (a b : Vector2) (r : ℚ) : Decidable (distLt a b r) := by
  unfold distLt; infer_instance

/-- Exact translation of the source comparison dist(a, b) > r: true for
negative r, otherwise equivalent to comparing squares. -/
def distGt (a b : Vector2) (r : ℚ) : Prop :=
  r < 0 ∨ r ^ 2 < distSq a b

instance (a b : Vector2) (r : ℚ) : Decidable (distGt a b r) := by
  unfold distGt; infer_instance

/-- checkRectCollide from src/services/engine.ts, lines 19 to 25:
clamp the circle center onto the rectangle and compare the squared
distance to the squared radius (the source already works with squares
here, so this is a direct transcription).  nearestPointDistSq is the
squared distance computed on lines 20 to 24. -/
def nearestPointDistSq (circle : Circle) (rect : Obstacle) : ℚ :=
  let testX := if circle.x < rect.x then rect.x
               else if circle.x > rect.x + rect.w then rect.x + rect.w
               else circle.x
  let testY := if circle.y < rect.y then rect.y
               else if circle.y > rect.y + rect.h then rect.y + rect.h
               else circle.y
  let distX := circle.x - testX
  let distY := circle.y - testY
  distX * distX + distY * distY

/-- checkRectCollide from src/services/engine.ts, line 24: the comparison
is non strict, so the boundary case counts as a hit. -/
def checkRectCollide (circle : Circle) (rect : Obstacle) : Bool :=
  nearestPointDistSq circle rect ≤ circle.r * circle.r

/-- Battle royale zone state machine, src/services/engine.ts lines 214 to
228: WAITING counts the shrink timer down by dt/1000 and flips to
SHRINKING at zero; SHRINKING reduces the radius by (mapWidth/300) *
(dt/1000) and, once the radius has reached the target, returns to WAITING
with target radius halved (clamped to zero below 50) and timer reset to
30. -/
def zoneStep (z : Zone) (mapWidth dt : ℚ) : Zone :=
  match z.state with
  | ZoneState.WAITING =>
      let t := z.shrinkTimer - dt / 1000
      if t ≤ 0 then { z with shrinkTimer := t, state := ZoneState.SHRINKING }
      else { z with shrinkTimer := t }
  | ZoneState.SHRINKING =>
      let r := z.radius - (mapWidth / 300) * (dt / 1000)
      if r ≤ z.targetRadius then
        { z with radius := r, state := ZoneState.WAITING,
                 targetRadius := if r / 2 < 50 then 0 else r / 2,
                 shrinkTimer := 30 }
      else { z with radius := r }

/-- Out of zone damage for one player, src/services/engine.ts lines 231
to 244: an active player farther from the zone center than the radius
loses damagePerTick health and, at health less than or equal to zero, is
deactivated, charged a death, and a message is unshifted onto the kill
feed with no truncation.  The formatted message text is passed in as msg;
inactive players are untouched. -/
def zoneDamagePlayer (z : Zone) (msg : String) (p : Player) (feed : List String) :
    Player × List String :=
  if p.active then
    if distGt p.pos ⟨z.x, z.y⟩ z.radius then
      let h := p.health - z.damagePerTick
      if h ≤ 0 then
        ({ p with health := h, active := false, deaths := p.deaths + 1 }, msg :: feed)
      else ({ p with health := h }, feed)
    else (p, feed)
  else (p, feed)

/-- Victim side of a bullet hit, src/services/engine.ts lines 402 to 405
together with the victim mutations of handleKill on lines 712 to 713:
health drops by the bullet damage with no lower clamp; at health less
than or equal to zero the victim is deactivated and charged a death. -/
def damagePlayer (b : Bullet) (p : Player) : Player :=
  let h := p.health - b.damage
  if h ≤ 0 then { p with health := h, active := false, deaths := p.deaths + 1 }
  else { p with health := h }

/-- Eligibility filter of the bullet versus player loop,
src/services/engine.ts lines 393 to 400: inactive players are skipped,
teammates are skipped in team modes, the owner is skipped otherwise, and
the proximity test is dist(bullet, player) < player.radius + 5. -/
def hitEligible (isTeamMode : Bool) (b : Bullet) (p : Player) : Bool :=
  p.active &&
  (if isTeamMode then decide (p.team ≠ b.team) else decide (p.id ≠ b.ownerId)) &&
  decide (distLt b.pos p.pos (p.radius + 5))

/-- The bullet versus player loop, src/services/engine.ts lines 392 to
409: the first eligible player in list order is damaged, the bullet is
deactivated, and the loop breaks; all other players pass through
unchanged. -/
def hitLoop (isTeamMode : Bool) (b : Bullet) : List Player → Bullet × List Player
  | [] => (b, [])
  | p :: rest =>
    if hitEligible isTeamMode b p then
      ({ b with active := false }, damagePlayer b p :: rest)
    else
      let res := hitLoop isTeamMode b rest
      (res.1, p :: res.2)

/-- Bullet advancement, src/services/engine.ts lines 384 to 389: the
position moves by velocity times the fixed step 25, the traveled distance
grows by 25, and the bullet is deactivated when the traveled distance
strictly exceeds its max distance. -/
def bulletAdvance (b : Bullet) : Bullet :=
  let b' := { b with
    pos := ⟨b.pos.x + b.velocity.x * 25, b.pos.y + b.velocity.y * 25⟩,
    distanceTraveled := b.distanceTraveled + 25 }
  if b'.maxDistance < b'.distanceTraveled then { b' with active := false } else b'

/-- The bullet versus obstacle loop, src/services/engine.ts lines 412 to
421: WINDOW and COVER_HALF obstacles are skipped outright; for the rest,
a bounding box pre check requires the bullet center inside the rectangle,
after which checkRectCollide with radius 2 deactivates the bullet and the
loop breaks. -/
def bulletHitObstacles (b : Bullet) : List Obstacle → Bullet
  | [] => b
  | w :: rest =>
    if w.type = ObstacleType.WINDOW ∨ w.type = ObstacleType.COVER_HALF then
      bulletHitObstacles b rest
    else if b.pos.x < w.x ∨ b.pos.x > w.x + w.w ∨ b.pos.y < w.y ∨ b.pos.y > w.y + w.h then
      bulletHitObstacles b rest
    else if checkRectCollide ⟨b.pos.x, b.pos.y, 2⟩ w then
      { b with active := false }
    else bulletHitObstacles b rest

/-- Presence test of the control point loop, src/services/engine.ts lines
444 to 449: only active players strictly inside the point radius are
counted. -/
def countsPlayer (cp : ControlPoint) (p : Player) : Bool :=
  p.active && decide (distLt p.pos cp.pos cp.radius)

/-- Number of counted ALLIED players at a point, lines 444 to 449. -/
def alliedCountAt (cp : ControlPoint) (players : List Player) : Nat :=
  players.countP (fun p => countsPlayer cp p && decide (p.team = Team.ALLIED))

/-- Number of counted AXIS players at a point, lines 444 to 449. -/
def axisCountAt (cp : ControlPoint) (players : List Player) : Nat :=
  players.countP (fun p => countsPlayer cp p && decide (p.team = Team.AXIS))

/-- Capture contest step for one control point given the two presence
counts, src/services/engine.ts lines 451 to 471: one team alone and not
the owner gains one progress, flipping ownership and resetting progress
when the incremented progress reaches 100; with nobody present, positive
progress decays by one half toward zero; a contested point is frozen. -/
def cpTick (cp : ControlPoint) (alliedCount axisCount : Nat) : ControlPoint :=
  if 0 < alliedCount ∧ axisCount = 0 then
    if cp.team ≠ Team.ALLIED then
      if 100 ≤ cp.captureProgress + 1 then
        { cp with team := Team.ALLIED, captureProgress := 0 }
      else { cp with captureProgress := cp.captureProgress + 1 }
    else cp
  else if 0 < axisCount ∧ alliedCount = 0 then
    if cp.team ≠ Team.AXIS then
      if 100 ≤ cp.captureProgress + 1 then
        { cp with team := Team.AXIS, captureProgress := 0 }
      else { cp with captureProgress := cp.captureProgress + 1 }
    else cp
  else if alliedCount = 0 ∧ axisCount = 0 ∧ 0 < cp.captureProgress then
    { cp with captureProgress := max 0 (cp.captureProgress - 1/2) }
  else cp

/-- Full control point update over a player list, lines 442 to 471. -/
def controlPointUpdate (cp : ControlPoint) (players : List Player) : ControlPoint :=
  cpTick cp (alliedCountAt cp players) (axisCountAt cp players)

/-- Kill feed update of handleKill, src/services/engine.ts lines 745 to
746: unshift the formatted message, then pop the last entry when the
length exceeds 5. -/
def handleKillFeed (msg : String) (feed : List String) : List String :=
  let f := msg :: feed
  if 5 < f.length then f.dropLast else f

/-- Environment of a fire attempt: the match difficulty (read from the
game state on lines 542 to 543), the successive Math.random draws used
for spread sampling, and the angle to unit vector map (Math.cos and
Math.sin on lines 554 and 572), passed in explicitly so the definition is
executable. -/
structure FireCtx where
  difficulty : Difficulty
  rand : Nat → ℚ
  dir : ℚ → Vector2

/-- Bullet constructed by tryFireWeapon, src/services/engine.ts lines 549
to 561 (the random id and color strings are presentational and omitted). -/
def mkBullet (p : Player) (dir : ℚ → Vector2) (angle : ℚ) (w : WeaponStats) : Bullet :=
  { pos := p.pos, radius := 2, active := true, velocity := dir angle,
    damage := w.damage, team := p.team, ownerId := p.id,
    distanceTraveled := 0, maxDistance := w.range }

/-- Bot accuracy modifier, src/services/engine.ts lines 540 to 544. -/
def accuracyModFor (isBot : Bool) (d : Difficulty) : ℚ :=
  if isBot then
    match d with
    | Difficulty.RECRUIT => 2
    | Difficulty.ELITE => 1/2
    | Difficulty.VETERAN => 1
  else 1

/-- tryFireWeapon, src/services/engine.ts lines 529 to 583: a non knife
weapon with no ammo returns unchanged; otherwise, when at least fireRate
milliseconds have elapsed since the last shot, the shot timestamp is
recorded, ammo is decremented for every weapon except the knife, and one
primary bullet is emitted, plus four extra pellets with doubled spread for
the two shotgun class weapons.  Returns the updated player and the list
of bullets appended to state.bullets, in source push order. -/
def tryFireWeapon (ctx : FireCtx) (p : Player) (now : ℚ) : Player × List Bullet :=
  let weapon := WEAPONS p.weapon
  if p.weapon ≠ WeaponType.KNIFE ∧ p.ammo ≤ 0 then (p, [])
  else if weapon.fireRate ≤ now - p.lastShotTime then
    let p' := { p with lastShotTime := now,
                       ammo := if p.weapon ≠ WeaponType.KNIFE then p.ammo - 1 else p.ammo }
    let accuracyMod := accuracyModFor p.isBot ctx.difficulty
    let spread := (ctx.rand 0 - 1/2) * weapon.accuracy * accuracyMod
    let primary := mkBullet p ctx.dir (p.angle + spread) weapon
    let pellets :=
      if p.weapon = WeaponType.SHOTGUN ∨ p.weapon = WeaponType.AUTO_SHOTGUN then
        (List.range 4).map (fun i =>
          mkBullet p ctx.dir
            (p.angle + (ctx.rand (i + 1) - 1/2) * weapon.accuracy * 2 * accuracyMod) weapon)
      else []
    (p', primary :: pellets)
  else (p, [])

/-- The human fire gate of updateGame, src/services/engine.ts lines 285
to 287: a human shot attempt reaches tryFireWeapon only while not
reloading and with strictly positive ammo, for every weapon including the
knife. -/
def humanFireAttempt (ctx : FireCtx) (p : Player) (now : ℚ) (shouldShoot : Bool) :
    Player × List Bullet :=
  if shouldShoot = true ∧ p.isReloading = false ∧ 0 < p.ammo then tryFireWeapon ctx p now
  else (p, [])

/-- createBot from createInitialState, src/services/engine.ts lines 106
to 146.  The random weapon roll (Math.floor of Math.random times 3 on
line 109), the safe spawn position and the random facing angle are passed
in explicitly.  Outside battle royale every bot gets the literal ammo
value 100 regardless of its weapon. -/
def createBot (mode : GameMode) (difficulty : Difficulty) (weaponRoll : Nat)
    (id : String) (team : Team) (pos : Vector2) (angle : ℚ) : Player :=
  let isBR := mode = GameMode.BATTLE_ROYALE
  let isSoloMode := mode = GameMode.FFA ∨ mode = GameMode.GUN_GAME ∨
      mode = GameMode.BATTLE_ROYALE
  let botWeapons := [WeaponType.RIFLE, WeaponType.SMG, WeaponType.SHOTGUN]
  let weapon0 := botWeapons.getD (weaponRoll % 3) WeaponType.RIFLE
  let weapon1 := if mode = GameMode.GUN_GAME then GUN_GAME_ORDER.getD 0 WeaponType.PISTOL
                 else weapon0
  let weapon := if isBR then WeaponType.KNIFE else weapon1
  let botHealth : ℚ :=
    match difficulty with
    | Difficulty.RECRUIT => 80
    | Difficulty.ELITE => 120
    | Difficulty.VETERAN => 100
  let botSpeed : ℚ :=
    match difficulty with
    | Difficulty.RECRUIT => PLAYER_SPEED * (7/10)
    | Difficulty.ELITE => PLAYER_SPEED * 1
    | Difficulty.VETERAN => PLAYER_SPEED * (9/10)
  { id := id, pos := pos, radius := PLAYER_RADIUS, active := true,
    team := if isSoloMode then Team.NONE else team, angle := angle,
    health := botHealth, maxHealth := botHealth, speed := botSpeed,
    weapon := weapon, ammo := if isBR then 0 else 100,
    isReloading := false, reloadTimer := 0, lastShotTime := 0,
    kills := 0, deaths := 0, isBot := true }

/-! Concrete instances used to evaluate the model on specific inputs. -/

/-- A deterministic fire environment: every random draw is 1/2 (zero
spread) and every angle maps to the unit vector along x. -/
def ctx0 : FireCtx :=
  { difficulty := Difficulty.VETERAN, rand := fun _ => 1/2, dir := fun _ => ⟨1, 0⟩ }

/-- An active AXIS bot at the origin with 10 health. -/
def victim0 : Player :=
  { id := "bot-axis-0", pos := ⟨0, 0⟩, radius := 16, active := true,
    team := Team.AXIS, angle := 0, health := 10, maxHealth := 100, speed := 5,
    weapon := WeaponType.RIFLE, ammo := 30, isReloading := false,
    reloadTimer := 0, lastShotTime := 0, kills := 0, deaths := 0, isBot := true }

/-- An inactive AXIS bot. -/
def downed0 : Player :=
  { id := "bot-axis-1", pos := ⟨0, 0⟩, radius := 16, active := false,
    team := Team.AXIS, angle := 0, health := 0, maxHealth := 100, speed := 5,
    weapon := WeaponType.RIFLE, ammo := 30, isReloading := false,
    reloadTimer := 0, lastShotTime := 0, kills := 0, deaths := 1, isBot := true }

/-- An ALLIED pistol bullet at the origin. -/
def shot0 : Bullet :=
  { pos := ⟨0, 0⟩, radius := 2, active := true, velocity := ⟨1, 0⟩,
    damage := 45, team := Team.ALLIED, ownerId := "player",
    distanceTraveled := 25, maxDistance := 600 }

/-- The human player with a knife and an empty ammo counter, the battle
royale starting loadout. -/
def humanKnife0 : Player :=
  { id := "player", pos := ⟨0, 0⟩, radius := 16, active := true,
    team := Team.NONE, angle := 0, health := 100, maxHealth := 100, speed := 5,
    weapon := WeaponType.KNIFE, ammo := 0, isReloading := false,
    reloadTimer := 0, lastShotTime := 0, kills := 0, deaths := 0, isBot := false }

/-- A player holding a shotgun with one shell left. -/
def shotgunner0 : Player :=
  { id := "player", pos := ⟨0, 0⟩, radius := 16, active := true,
    team := Team.ALLIED, angle := 0, health := 100, maxHealth := 100, speed := 5,
    weapon := WeaponType.SHOTGUN, ammo := 1, isReloading := false,
    reloadTimer := 0, lastShotTime := 0, kills := 0, deaths := 0, isBot := false }

/-- A shrinking zone one tick away from crossing its target radius. -/
def zone0 : Zone :=
  { x := 1500, y := 1000, radius := 101, targetRadius := 100,
    shrinkTimer := 0, state := ZoneState.SHRINKING, damagePerTick := 1/2 }

/-- A zone whose boundary excludes the origin area players below. -/
def zone1 : Zone :=
  { x := 0, y := 0, radius := 100, targetRadius := 50,
    shrinkTimer := 0, state := ZoneState.SHRINKING, damagePerTick := 1/2 }

/-- An active player on half a health point standing outside zone1. -/
def strayP0 : Player :=
  { id := "bot-axis-0", pos := ⟨200, 0⟩, radius := 16, active := true,
    team := Team.NONE, angle := 0, health := 1/2, maxHealth := 100, speed := 5,
    weapon := WeaponType.KNIFE, ammo := 0, isReloading := false,
    reloadTimer := 0, lastShotTime := 0, kills := 0, deaths := 0, isBot := true }

/-- A kill feed already holding the maximum of five entries. -/
def feed5 : List String := ["e1", "e2", "e3", "e4", "e5"]

/-- A half cover obstacle. -/
def halfCover0 : Obstacle :=
  { x := 0, y := 0, w := 40, h := 40, type := ObstacleType.COVER_HALF }

/-- A bullet sitting in the middle of halfCover0. -/
def coverShot0 : Bullet :=
  { pos := ⟨20, 20⟩, radius := 2, active := true, velocity := ⟨1, 0⟩,
    damage := 25, team := Team.ALLIED, ownerId := "player",
    distanceTraveled := 25, maxDistance := 800 }

/-- A control point at half integer progress 99.5, owned by nobody. -/
def cpHalf0 : ControlPoint :=
  { id := "cp1", pos := ⟨0, 0⟩, radius := 100, active := true,
    team := Team.NONE, captureProgress := 199/2, name := "A" }

/-- A bullet 25 units short of its maximum range. -/
def nearRange0 : Bullet :=
  { pos := ⟨0, 0⟩, radius := 2, active := true, velocity := ⟨1, 0⟩,
    damage := 25, team := Team.ALLIED, ownerId := "player",
    distanceTraveled := 780, maxDistance := 800 }

/-- A full cover obstacle at the same place as halfCover0. -/
def fullCover0 : Obstacle :=
  { x := 0, y := 0, w := 40, h := 40, type := ObstacleType.COVER_FULL }

/-- A generic kill feed message. -/
def msg0 : String := "m"

/-- The zone death message the engine formats for strayP0. -/
def zoneMsg0 : String := "BOT-AXIS-0 died to the ZONE"

/-- A bot identifier. -/
def botId0 : String := "bot-axis-0"


/-! Helper lemmas shared by the claim theorems. -/

/-- Every player in the output of the hit loop is either an untouched
input player or the damaged image of an input player that passed the
eligibility filter. -/
theorem hitLoop_mem (tm : Bool) (b : Bullet) (ps : List Player) :
    ∀ r ∈ (hitLoop tm b ps).2,
      r ∈ ps ∨ ∃ r₀ ∈ ps, hitEligible tm b r₀ = true ∧ r = damagePlayer b r₀ := by
  induction ps with
  | nil => simp [hitLoop]
  | cons p rest ih =>
    intro r hr
    by_cases h : hitEligible tm b p
    · rw [hitLoop, if_pos h] at hr
      rcases List.mem_cons.mp hr with h1 | h1
      · exact Or.inr ⟨p, List.mem_cons_self p rest, h, h1⟩
      · exact Or.inl (List.mem_cons_of_mem p h1)
    · rw [hitLoop, if_neg h] at hr
      rcases List.mem_cons.mp hr with h1 | h1
      · exact Or.inl (h1 ▸ List.mem_cons_self p rest)
      · rcases ih r h1 with h2 | ⟨r₀, hr₀, he, hd⟩
        · exact Or.inl (List.mem_cons_of_mem p h2)
        · exact Or.inr ⟨r₀, List.mem_cons_of_mem p hr₀, he, hd⟩

/-- The concrete bullet shot0 passes the eligibility filter against the
concrete active enemy victim0 in a team mode. -/
theorem shot0_hits_victim0 : hitEligible true shot0 victim0 = true := by
  norm_num [hitEligible, victim0, shot0, distLt, distSq]
  decide

/-! Claim theorems. -/

/-- C9: the circle versus rectangle collision test classifies a circle
whose center lies exactly at distance equal to its radius from the
nearest point of the rectangle as colliding, because the comparison in
checkRectCollide is non strict. -/
theorem checkRectCollide_boundary_hit (c : Circle) (rect : Obstacle)
    (hr : 0 ≤ c.r) (h : nearestPointDistSq c rect = c.r ^ 2) :
    checkRectCollide c rect = true := by
  have hle : nearestPointDistSq c rect ≤ c.r * c.r := le_of_eq (by rw [h]; ring)
  simpa [checkRectCollide] using hle

/-- Witness for C9: a circle of radius 3 centered 3 units left of the
rectangle touches its edge and is classified as colliding. -/
theorem checkRectCollide_boundary_hit_witness :
    checkRectCollide ⟨-3, 5, 3⟩ ⟨0, 0, 10, 10, ObstacleType.WALL⟩ = true :=
  checkRectCollide_boundary_hit ⟨-3, 5, 3⟩ ⟨0, 0, 10, 10, ObstacleType.WALL⟩
    (by norm_num) (by norm_num [nearestPointDistSq])

/-- C10: in every non battle royale match initialization, createBot sets
the bot ammo to the literal 100 whatever the rolled weapon is, although a
rifle magazine holds only 30 rounds. -/
theorem createBot_ammo_always_100 (mode : GameMode) (d : Difficulty) (roll : Nat)
    (id : String) (team : Team) (pos : Vector2) (angle : ℚ)
    (h : mode ≠ GameMode.BATTLE_ROYALE) :
    (createBot mode d roll id team pos angle).ammo = 100 ∧
    (WEAPONS WeaponType.RIFLE).magSize = 30 := by
  refine ⟨?_, rfl⟩
  simp [createBot, h]

/-- Witness for C10: a TDM bot rolling the rifle starts with 100 rounds. -/
theorem createBot_ammo_always_100_witness :
    (createBot GameMode.TDM Difficulty.VETERAN 0 botId0 Team.AXIS ⟨0, 0⟩ 0).ammo = 100 ∧
    (WEAPONS WeaponType.RIFLE).magSize = 30 :=
  createBot_ammo_always_100 GameMode.TDM Difficulty.VETERAN 0 botId0
    Team.AXIS ⟨0, 0⟩ 0 (by decide)

/-- C7 counterexample: a bullet that has traveled only 25 of its 600
units becomes inactive by hitting a player, so an eventually inactive
bullet need not have exceeded its max range, refuting the claimed
equivalence. -/
theorem bullet_inactive_without_range_excess :
    ((hitLoop true shot0 [victim0]).1).active = false ∧
    ((hitLoop true shot0 [victim0]).1).distanceTraveled ≤
      ((hitLoop true shot0 [victim0]).1).maxDistance := by
  have he : hitEligible true shot0 victim0 = true := by
    norm_num [hitEligible, victim0, shot0, distLt, distSq]
    decide
  simp only [hitLoop, he, if_true]
  refine ⟨?_, ?_⟩ <;> norm_num [shot0]

/-- C7 amended: a bullet advancement step grows the traveled distance by
exactly the fixed step 25, hence monotonically; exceeding the max range
after the step forces the bullet inactive, and a step that stays within
range leaves the active flag unchanged.  The converse of the deactivation
rule fails because player and obstacle hits also deactivate bullets. -/
theorem bulletAdvance_range_spec (b : Bullet) :
    (bulletAdvance b).distanceTraveled = b.distanceTraveled + 25 ∧
    b.distanceTraveled ≤ (bulletAdvance b).distanceTraveled ∧
    (b.maxDistance < b.distanceTraveled + 25 → (bulletAdvance b).active = false) ∧
    (b.distanceTraveled + 25 ≤ b.maxDistance → (bulletAdvance b).active = b.active) := by
  simp only [bulletAdvance]
  by_cases h : b.maxDistance < b.distanceTraveled + 25
  · rw [if_pos h]
    exact ⟨rfl, by show b.distanceTraveled ≤ b.distanceTraveled + 25; linarith,
      fun _ => rfl, fun hc => absurd h (not_lt.mpr hc)⟩
  · rw [if_neg h]
    exact ⟨rfl, by show b.distanceTraveled ≤ b.distanceTraveled + 25; linarith,
      fun hc => absurd hc h, fun _ => rfl⟩

/-- Witness for C7: a bullet at 780 of 800 units is pushed to 805 by the
next step and deactivated. -/
theorem bulletAdvance_range_spec_witness :
    (bulletAdvance nearRange0).distanceTraveled = nearRange0.distanceTraveled + 25 ∧
    (bulletAdvance nearRange0).active = false :=
  ⟨(bulletAdvance_range_spec nearRange0).1,
   (bulletAdvance_range_spec nearRange0).2.2.1 (by norm_num [nearRange0])⟩

/-- C4 counterexample: one shrink step on a 3000 wide map takes a
SHRINKING zone from radius 101 to radius 91, strictly below its target
radius 100, so the radius does undershoot the target within a shrink
segment. -/
theorem zone_radius_undershoots_target :
    zone0.state = ZoneState.SHRINKING ∧
    (zoneStep zone0 3000 1000).radius < zone0.targetRadius := by
  refine ⟨rfl, ?_⟩
  norm_num [zoneStep, zone0]

/-- C4 amended: over a SHRINKING step with nonnegative map width and
frame delta, the radius decreases by exactly (mapWidth/300)*(dt/1000), so
it is non increasing but may end strictly below the target; when the new
radius has reached the target the zone returns to WAITING with the target
halved from the new radius (clamped to zero below 50) and the timer reset
to 30, and otherwise it stays SHRINKING with the target unchanged. -/
theorem zoneStep_shrinking_spec (z : Zone) (mapW dt : ℚ)
    (hs : z.state = ZoneState.SHRINKING) (hm : 0 ≤ mapW) (hd : 0 ≤ dt) :
    (zoneStep z mapW dt).radius = z.radius - (mapW / 300) * (dt / 1000) ∧
    (zoneStep z mapW dt).radius ≤ z.radius ∧
    (z.radius - (mapW / 300) * (dt / 1000) ≤ z.targetRadius →
      (zoneStep z mapW dt).state = ZoneState.WAITING ∧
      (zoneStep z mapW dt).shrinkTimer = 30 ∧
      (zoneStep z mapW dt).targetRadius =
        (if (z.radius - (mapW / 300) * (dt / 1000)) / 2 < 50 then 0
         else (z.radius - (mapW / 300) * (dt / 1000)) / 2)) ∧
    (z.targetRadius < z.radius - (mapW / 300) * (dt / 1000) →
      (zoneStep z mapW dt).state = ZoneState.SHRINKING ∧
      (zoneStep z mapW dt).targetRadius = z.targetRadius) := by
  have hshrink : 0 ≤ (mapW / 300) * (dt / 1000) := by positivity
  rcases z with ⟨zx, zy, zr, zt, ztimer, zstate, zdmg⟩
  cases zstate with
  | WAITING => exact absurd hs (by simp)
  | SHRINKING =>
    simp only [zoneStep]
    by_cases h : zr - mapW / 300 * (dt / 1000) ≤ zt
    · rw [if_pos h]
      exact ⟨rfl, by show zr - mapW / 300 * (dt / 1000) ≤ zr; linarith,
        fun _ => ⟨rfl, rfl, rfl⟩, fun hc => absurd h (not_le.mpr hc)⟩
    · rw [if_neg h]
      exact ⟨rfl, by show zr - mapW / 300 * (dt / 1000) ≤ zr; linarith,
        fun hc => absurd hc h, fun _ => ⟨rfl, rfl⟩⟩

/-- Witness for C4: the undershooting step of zone0 transitions to
WAITING with timer 30 and target clamped to zero since 91/2 is below 50. -/
theorem zoneStep_shrinking_spec_witness :
    (zoneStep zone0 3000 1000).radius = zone0.radius - (3000 / 300) * (1000 / 1000) ∧
    (zoneStep zone0 3000 1000).state = ZoneState.WAITING ∧
    (zoneStep zone0 3000 1000).shrinkTimer = 30 ∧
    (zoneStep zone0 3000 1000).targetRadius = 0 := by
  have h := zoneStep_shrinking_spec zone0 3000 1000 rfl (by norm_num) (by norm_num)
  refine ⟨h.1, ?_⟩
  have h2 := h.2.2.1 (by norm_num [zone0])
  refine ⟨h2.1, h2.2.1, ?_⟩
  rw [h2.2.2]
  norm_num [zone0]

/-- C2 counterexample: a bullet sitting inside a COVER_HALF obstacle is
in contact with it (the containment test holds), yet the obstacle loop
returns the bullet unchanged and still active, because line 413 skips
COVER_HALF together with WINDOW; so COVER_HALF does not kill bullets. -/
theorem cover_half_lets_bullet_through :
    checkRectCollide ⟨coverShot0.pos.x, coverShot0.pos.y, 2⟩ halfCover0 = true ∧
    halfCover0.type = ObstacleType.COVER_HALF ∧
    bulletHitObstacles coverShot0 [halfCover0] = coverShot0 ∧
    coverShot0.active = true := by
  refine ⟨?_, rfl, ?_, rfl⟩
  · norm_num [checkRectCollide, nearestPointDistSq, coverShot0, halfCover0]
  · rw [bulletHitObstacles, if_pos (show halfCover0.type = ObstacleType.WINDOW ∨
      halfCover0.type = ObstacleType.COVER_HALF from Or.inr rfl)]
    rfl

/-- C2 amended: obstacles that are all of type WINDOW or COVER_HALF
never deactivate a bullet, while a first obstacle of type WALL or
COVER_FULL containing the bullet position deactivates it on contact. -/
theorem bulletHitObstacles_blocking_spec (b : Bullet) (w : Obstacle) (ws os : List Obstacle)
    (hos : ∀ o ∈ os, o.type = ObstacleType.WINDOW ∨ o.type = ObstacleType.COVER_HALF)
    (hw : w.type = ObstacleType.WALL ∨ w.type = ObstacleType.COVER_FULL)
    (hx1 : w.x ≤ b.pos.x) (hx2 : b.pos.x ≤ w.x + w.w)
    (hy1 : w.y ≤ b.pos.y) (hy2 : b.pos.y ≤ w.y + w.h) :
    bulletHitObstacles b os = b ∧
    (bulletHitObstacles b (w :: ws)).active = false := by
  constructor
  · induction os with
    | nil => rfl
    | cons o rest ih =>
      have hot := hos o (List.mem_cons_self o rest)
      rw [bulletHitObstacles, if_pos hot]
      exact ih fun o' ho' => hos o' (List.mem_cons_of_mem o ho')
  · have hskip : ¬(w.type = ObstacleType.WINDOW ∨ w.type = ObstacleType.COVER_HALF) := by
      rcases hw with h | h <;> rw [h] <;> decide
    have hbox : ¬(b.pos.x < w.x ∨ b.pos.x > w.x + w.w ∨ b.pos.y < w.y ∨ b.pos.y > w.y + w.h) := by
      intro hc
      rcases hc with h | h | h | h <;> linarith
    have hdist : nearestPointDistSq ⟨b.pos.x, b.pos.y, 2⟩ w = 0 := by
      simp only [nearestPointDistSq]
      rw [if_neg (not_lt.mpr hx1), if_neg (not_lt.mpr hx2),
          if_neg (not_lt.mpr hy1), if_neg (not_lt.mpr hy2)]
      ring
    have hcol : checkRectCollide ⟨b.pos.x, b.pos.y, 2⟩ w = true := by
      unfold checkRectCollide
      rw [hdist]
      norm_num
    rw [bulletHitObstacles, if_neg hskip, if_neg hbox, if_pos hcol]

/-- C3 counterexample: a zone death on a kill feed already holding five
entries pushes the feed to six entries, because the zone death path
unshifts without truncating; the feed length does exceed the cap after
this elimination event. -/
theorem zone_death_overflows_killFeed :
    feed5.length = 5 ∧
    5 < ((zoneDamagePlayer zone1 zoneMsg0 strayP0 feed5).2).length := by
  refine ⟨rfl, ?_⟩
  unfold zoneDamagePlayer
  rw [if_pos (show strayP0.active = true from rfl)]
  rw [if_pos (show distGt strayP0.pos ⟨zone1.x, zone1.y⟩ zone1.radius from by
    norm_num [distGt, distSq, strayP0, zone1])]
  rw [if_pos (show strayP0.health - zone1.damagePerTick ≤ 0 from by
    norm_num [strayP0, zone1])]
  norm_num [feed5]

/-- C3 amended: an elimination recorded through handleKill prepends the
message and keeps the feed within five entries whenever it was within
five; an elimination by the zone prepends the message without any
truncation, growing the feed by one. -/
theorem killFeed_update_spec (msg : String) (feed : List String) (z : Zone) (p : Player)
    (hf : feed.length ≤ 5) (hp : p.active = true)
    (hout : distGt p.pos ⟨z.x, z.y⟩ z.radius)
    (hdie : p.health - z.damagePerTick ≤ 0) :
    (handleKillFeed msg feed).head? = some msg ∧
    (handleKillFeed msg feed).length ≤ 5 ∧
    (zoneDamagePlayer z msg p feed).2 = msg :: feed := by
  refine ⟨?_, ?_, ?_⟩
  · unfold handleKillFeed
    by_cases h : 5 < (msg :: feed).length
    · rw [if_pos h]
      cases feed with
      | nil => simp at h
      | cons a t => rfl
    · rw [if_neg h]
      rfl
  · unfold handleKillFeed
    by_cases h : 5 < (msg :: feed).length
    · rw [if_pos h, List.length_dropLast]
      simp
      omega
    · rw [if_neg h]
      simp at h ⊢
      omega
  · unfold zoneDamagePlayer
    rw [if_pos hp, if_pos hout, if_pos hdie]

/-- C6 counterexample: a control point at progress 99.5 flips to ALLIED
ownership on the next uncontested tick although its progress is never
exactly 100 at any observable instant: it is 99.5 before the tick, the
crossing value 100.5 is not 100, and the progress after the flip is 0. -/
theorem ownership_flip_not_at_100 :
    (cpTick cpHalf0 1 0).team ≠ cpHalf0.team ∧
    cpHalf0.captureProgress ≠ 100 ∧
    cpHalf0.captureProgress + 1 ≠ 100 ∧
    (cpTick cpHalf0 1 0).captureProgress ≠ 100 := by
  have hstep : cpTick cpHalf0 1 0 =
      { cpHalf0 with team := Team.ALLIED, captureProgress := 0 } := by
    unfold cpTick
    rw [if_pos (show 0 < 1 ∧ 0 = 0 from ⟨Nat.one_pos, rfl⟩)]
    rw [if_pos (show cpHalf0.team ≠ Team.ALLIED from by decide)]
    rw [if_pos (show (100:ℚ) ≤ cpHalf0.captureProgress + 1 from by norm_num [cpHalf0])]
  refine ⟨?_, ?_, ?_, ?_⟩
  · rw [hstep]
    exact fun hc => absurd hc (by decide)
  · norm_num [cpHalf0]
  · norm_num [cpHalf0]
  · rw [hstep]
    norm_num

/-- C6 amended: over one capture contest tick, progress stays within
[0, 100] whenever it starts there; ownership (a single team field, so at
most one owner by construction) changes exactly when one team is present
alone, does not already own the point, and the incremented progress
cprog + 1 reaches at least 100 — which can happen at the half integer
crossing value 100.5, not only exactly at 100 — and the flip resets
progress to 0. -/
theorem cpTick_progress_and_flip_spec (cp : ControlPoint) (a x : Nat)
    (h0 : 0 ≤ cp.captureProgress) (h100 : cp.captureProgress ≤ 100) :
    0 ≤ (cpTick cp a x).captureProgress ∧
    (cpTick cp a x).captureProgress ≤ 100 ∧
    ((cpTick cp a x).team ≠ cp.team ↔
      (100 ≤ cp.captureProgress + 1 ∧
       ((0 < a ∧ x = 0 ∧ cp.team ≠ Team.ALLIED) ∨
        (0 < x ∧ a = 0 ∧ cp.team ≠ Team.AXIS)))) ∧
    ((cpTick cp a x).team ≠ cp.team → (cpTick cp a x).captureProgress = 0) := by
  rcases cp with ⟨cid, cpos, crad, cact, cteam, cprog, cname⟩
  dsimp only at h0 h100 ⊢
  unfold cpTick
  dsimp only
  split_ifs with h1 h2 h3 h4 h5 h6 h7
  · exact ⟨le_rfl, by norm_num, iff_of_true (Ne.symm h2) ⟨h3, Or.inl ⟨h1.1, h1.2, h2⟩⟩,
      fun _ => rfl⟩
  · refine ⟨?_, ?_, iff_of_false (fun hc => hc rfl) (fun hc => h3 hc.1),
      fun hc => absurd rfl hc⟩
    · show (0:ℚ) ≤ cprog + 1
      linarith
    · show cprog + (1:ℚ) ≤ 100
      have := not_le.mp h3
      linarith
  · refine ⟨h0, h100, iff_of_false (fun hc => hc rfl) ?_, fun hc => absurd rfl hc⟩
    rintro ⟨hpr, ⟨ha', hx', hteam⟩ | ⟨hx', ha', hteam⟩⟩
    · exact h2 hteam
    · have := h1.1
      omega
  · exact ⟨le_rfl, by norm_num, iff_of_true (Ne.symm h5) ⟨h6, Or.inr ⟨h4.1, h4.2, h5⟩⟩,
      fun _ => rfl⟩
  · refine ⟨?_, ?_, iff_of_false (fun hc => hc rfl) (fun hc => h6 hc.1),
      fun hc => absurd rfl hc⟩
    · show (0:ℚ) ≤ cprog + 1
      linarith
    · show cprog + (1:ℚ) ≤ 100
      have := not_le.mp h6
      linarith
  · refine ⟨h0, h100, iff_of_false (fun hc => hc rfl) ?_, fun hc => absurd rfl hc⟩
    rintro ⟨hpr, ⟨ha', hx', hteam⟩ | ⟨hx', ha', hteam⟩⟩
    · have := h4.2
      omega
    · exact h5 hteam
  · refine ⟨le_max_left 0 _, ?_, iff_of_false (fun hc => hc rfl) ?_,
      fun hc => absurd rfl hc⟩
    · show max 0 (cprog - 1/2) ≤ 100
      exact max_le (by norm_num) (by linarith)
    · rintro ⟨hpr, ⟨ha', hx', hteam⟩ | ⟨hx', ha', hteam⟩⟩
      · have := h7.1
        omega
      · have := h7.2.1
        omega
  · refine ⟨h0, h100, iff_of_false (fun hc => hc rfl) ?_, fun hc => absurd rfl hc⟩
    rintro ⟨hpr, ⟨ha', hx', hteam⟩ | ⟨hx', ha', hteam⟩⟩
    · exact h1 ⟨ha', hx'⟩
    · exact h4 ⟨hx', ha'⟩

/-- Witness for C6: the uncontested tick on cpHalf0 keeps progress inside
[0, 100] and resets it on the ownership flip. -/
theorem cpTick_progress_and_flip_spec_witness :
    0 ≤ (cpTick cpHalf0 1 0).captureProgress ∧
    (cpTick cpHalf0 1 0).captureProgress ≤ 100 :=
  ⟨(cpTick_progress_and_flip_spec cpHalf0 1 0 (by norm_num [cpHalf0])
      (by norm_num [cpHalf0])).1,
   (cpTick_progress_and_flip_spec cpHalf0 1 0 (by norm_num [cpHalf0])
      (by norm_num [cpHalf0])).2.1⟩

/-- C5 counterexample: the human player holding the knife with zero ammo,
not reloading and well past the fire interval, attempts to fire and
nothing happens — no bullet, no timestamp, no state change — because the
human gate on line 285 requires ammo strictly positive even for the
knife; the same player fired through the bot path does produce a shot. -/
theorem human_knife_fire_blocked_at_zero_ammo :
    humanKnife0.weapon = WeaponType.KNIFE ∧
    humanKnife0.ammo = 0 ∧
    humanKnife0.isReloading = false ∧
    (WEAPONS humanKnife0.weapon).fireRate ≤ 1000 - humanKnife0.lastShotTime ∧
    humanFireAttempt ctx0 humanKnife0 1000 true = (humanKnife0, []) ∧
    (tryFireWeapon ctx0 humanKnife0 1000).2 ≠ [] := by
  refine ⟨rfl, rfl, rfl, by norm_num [humanKnife0, WEAPONS], ?_, ?_⟩
  · unfold humanFireAttempt
    rw [if_neg]
    rintro ⟨-, -, hc⟩
    have : humanKnife0.ammo = 0 := rfl
    omega
  · simp only [tryFireWeapon]
    rw [if_neg (by rintro ⟨hc, -⟩; exact hc rfl)]
    rw [if_pos (by norm_num [humanKnife0, WEAPONS] : (WEAPONS humanKnife0.weapon).fireRate ≤
      1000 - humanKnife0.lastShotTime)]
    exact List.cons_ne_nil _ _

/-- C5 amended: tryFireWeapon itself (the path bots take) is a silent
no op exactly on rate limiting or an empty non melee magazine, fires the
knife without consuming ammo even at zero ammo, decrements ammo for non
melee weapons and records the shot timestamp; but a human fire attempt
passes through the gate of updateGame line 285, which additionally
requires strictly positive ammo for every weapon, so a human knife
attempt at zero ammo is a silent no op. -/
theorem tryFireWeapon_gate_spec (ctx : FireCtx) (p : Player) (now : ℚ) (ss : Bool) :
    (now - p.lastShotTime < (WEAPONS p.weapon).fireRate → tryFireWeapon ctx p now = (p, [])) ∧
    (p.weapon ≠ WeaponType.KNIFE → p.ammo ≤ 0 → tryFireWeapon ctx p now = (p, [])) ∧
    (p.weapon ≠ WeaponType.KNIFE → 0 < p.ammo →
      (WEAPONS p.weapon).fireRate ≤ now - p.lastShotTime →
      (tryFireWeapon ctx p now).1.ammo = p.ammo - 1 ∧
      (tryFireWeapon ctx p now).1.lastShotTime = now ∧
      (tryFireWeapon ctx p now).2 ≠ []) ∧
    (p.weapon = WeaponType.KNIFE →
      (WEAPONS p.weapon).fireRate ≤ now - p.lastShotTime →
      (tryFireWeapon ctx p now).1.ammo = p.ammo ∧
      (tryFireWeapon ctx p now).1.lastShotTime = now ∧
      (tryFireWeapon ctx p now).2 ≠ []) ∧
    (p.ammo ≤ 0 → humanFireAttempt ctx p now ss = (p, [])) := by
  refine ⟨?_, ?_, ?_, ?_, ?_⟩
  · intro hlt
    simp only [tryFireWeapon]
    by_cases hg : p.weapon ≠ WeaponType.KNIFE ∧ p.ammo ≤ 0
    · rw [if_pos hg]
    · rw [if_neg hg, if_neg (not_le.mpr hlt)]
  · intro hk ha
    simp only [tryFireWeapon]
    rw [if_pos ⟨hk, ha⟩]
  · intro hk ha hrate
    simp only [tryFireWeapon]
    rw [if_neg (fun hc => absurd hc.2 (not_le.mpr ha)), if_pos hrate]
    refine ⟨?_, rfl, List.cons_ne_nil _ _⟩
    show (if p.weapon ≠ WeaponType.KNIFE then p.ammo - 1 else p.ammo) = p.ammo - 1
    rw [if_pos hk]
  · intro hk hrate
    simp only [tryFireWeapon]
    rw [if_neg (fun hc => hc.1 hk), if_pos hrate]
    refine ⟨?_, rfl, List.cons_ne_nil _ _⟩
    show (if p.weapon ≠ WeaponType.KNIFE then p.ammo - 1 else p.ammo) = p.ammo
    rw [if_neg (fun hc => hc hk)]
  · intro ha
    unfold humanFireAttempt
    rw [if_neg]
    rintro ⟨-, -, hc⟩
    omega

/-- Witness for C5: a knife bot at zero ammo and elapsed fire interval
fires through tryFireWeapon, keeping its ammo at zero and recording the
timestamp, while the human gate blocks the same no ammo attempt. -/
theorem tryFireWeapon_gate_spec_witness :
    ((tryFireWeapon ctx0 humanKnife0 1000).1.ammo = humanKnife0.ammo ∧
     (tryFireWeapon ctx0 humanKnife0 1000).1.lastShotTime = 1000 ∧
     (tryFireWeapon ctx0 humanKnife0 1000).2 ≠ []) ∧
    humanFireAttempt ctx0 humanKnife0 1000 true = (humanKnife0, []) :=
  ⟨(tryFireWeapon_gate_spec ctx0 humanKnife0 1000 true).2.2.2.1 rfl
      (by norm_num [humanKnife0, WEAPONS]),
   (tryFireWeapon_gate_spec ctx0 humanKnife0 1000 true).2.2.2.2 le_rfl⟩

/-- C8: a shotgun fire with one shell in a magazine of size 8 empties the
magazine and emits exactly five bullets in that tick, one primary plus
four pellets, all sharing the shotgun damage per pellet and range. -/
theorem shotgun_fire_pellets_spec (ctx : FireCtx) (p : Player) (now : ℚ)
    (hw : p.weapon = WeaponType.SHOTGUN) (ha : p.ammo = 1)
    (ht : (WEAPONS WeaponType.SHOTGUN).fireRate ≤ now - p.lastShotTime) :
    (WEAPONS WeaponType.SHOTGUN).magSize = 8 ∧
    (tryFireWeapon ctx p now).1.ammo = 0 ∧
    (tryFireWeapon ctx p now).2.length = 5 ∧
    ∀ bl ∈ (tryFireWeapon ctx p now).2,
      bl.damage = (WEAPONS WeaponType.SHOTGUN).damage ∧
      bl.maxDistance = (WEAPONS WeaponType.SHOTGUN).range := by
  have hknife : p.weapon ≠ WeaponType.KNIFE := by
    rw [hw]
    decide
  have hrate : (WEAPONS p.weapon).fireRate ≤ now - p.lastShotTime := by
    rw [hw]
    exact ht
  simp only [tryFireWeapon]
  rw [if_neg (by rintro ⟨-, hc⟩; rw [ha] at hc; omega), if_pos hrate]
  refine ⟨rfl, ?_, ?_, ?_⟩
  · show (if p.weapon ≠ WeaponType.KNIFE then p.ammo - 1 else p.ammo) = 0
    rw [if_pos hknife, ha]
    norm_num
  · show (_ :: (if p.weapon = WeaponType.SHOTGUN ∨ p.weapon = WeaponType.AUTO_SHOTGUN
      then _ else [])).length = 5
    rw [if_pos (Or.inl hw)]
    simp
  · intro bl hbl
    show bl.damage = (WEAPONS WeaponType.SHOTGUN).damage ∧
      bl.maxDistance = (WEAPONS WeaponType.SHOTGUN).range
    rw [if_pos (Or.inl hw)] at hbl
    rcases List.mem_cons.mp hbl with h | h
    · subst h
      rw [hw]
      exact ⟨rfl, rfl⟩
    · rcases List.mem_map.mp h with ⟨i, -, hi⟩
      subst hi
      rw [hw]
      exact ⟨rfl, rfl⟩

/-- Witness for C8: the concrete shotgunner with one shell produces five
bullets of damage 18 and range 250 and ends with an empty magazine. -/
theorem shotgun_fire_pellets_spec_witness :
    (WEAPONS WeaponType.SHOTGUN).magSize = 8 ∧
    (tryFireWeapon ctx0 shotgunner0 1000).1.ammo = 0 ∧
    (tryFireWeapon ctx0 shotgunner0 1000).2.length = 5 ∧
    ∀ bl ∈ (tryFireWeapon ctx0 shotgunner0 1000).2,
      bl.damage = (WEAPONS WeaponType.SHOTGUN).damage ∧
      bl.maxDistance = (WEAPONS WeaponType.SHOTGUN).range :=
  shotgun_fire_pellets_spec ctx0 shotgunner0 1000 rfl rfl (by norm_num [shotgunner0, WEAPONS])

/-- C1 counterexample: an active player whose health 10 lies within
[0, maxHealth] is hit by a 45 damage bullet during the bullet update of a
tick and ends the tick at health -35, so health does not stay within
[0, maxHealth]; the code never clamps health at zero. -/
theorem bullet_damage_drives_health_negative :
    0 ≤ victim0.health ∧ victim0.health ≤ victim0.maxHealth ∧
    victim0.active = true ∧
    ((hitLoop true shot0 [victim0]).2.headD victim0).health < 0 := by
  refine ⟨by norm_num [victim0], by norm_num [victim0], rfl, ?_⟩
  simp only [hitLoop, shot0_hits_victim0, if_true]
  norm_num [damagePlayer, victim0, shot0]

/-- C1 amended: inactive players are invisible to the per tick combat and
capture computations — the zone damage pass returns them untouched, the
bullet hit loop filter rejects them (and only eligible, hence active,
players are ever modified by that loop), and the control point presence
count ignores them; health never increases, so it stays at most maxHealth
under bullet damage and zone damage, but the killing blow may leave it
strictly negative. -/
theorem inactive_skipped_and_health_bounded (tm : Bool) (b : Bullet) (z : Zone)
    (msg : String) (feed : List String) (cp : ControlPoint) (p q : Player)
    (ps : List Player) (hp : p.active = false) (hd : 0 ≤ b.damage)
    (hz : 0 ≤ z.damagePerTick) (hq : q.health ≤ q.maxHealth) :
    zoneDamagePlayer z msg p feed = (p, feed) ∧
    hitEligible tm b p = false ∧
    countsPlayer cp p = false ∧
    (∀ r ∈ (hitLoop tm b ps).2,
      r ∈ ps ∨ ∃ r₀ ∈ ps, hitEligible tm b r₀ = true ∧ r = damagePlayer b r₀) ∧
    (damagePlayer b q).health ≤ q.health ∧
    (damagePlayer b q).maxHealth = q.maxHealth ∧
    (damagePlayer b q).health ≤ (damagePlayer b q).maxHealth ∧
    (zoneDamagePlayer z msg q feed).1.health ≤ q.health := by
  refine ⟨?_, ?_, ?_, hitLoop_mem tm b ps, ?_, ?_, ?_, ?_⟩
  · simp [zoneDamagePlayer, hp]
  · simp [hitEligible, hp]
  · simp [countsPlayer, hp]
  · simp only [damagePlayer]
    split_ifs with h
    · show q.health - b.damage ≤ q.health
      linarith
    · show q.health - b.damage ≤ q.health
      linarith
  · simp only [damagePlayer]
    split_ifs with h <;> rfl
  · simp only [damagePlayer]
    split_ifs with h
    · show q.health - b.damage ≤ q.maxHealth
      linarith
    · show q.health - b.damage ≤ q.maxHealth
      linarith
  · simp only [zoneDamagePlayer]
    split_ifs with h1 h2 h3
    · show q.health - z.damagePerTick ≤ q.health
      linarith
    · show q.health - z.damagePerTick ≤ q.health
      linarith
    · exact le_rfl
    · exact le_rfl

/-- Witness for C1: the inactive player downed0 is untouched by zone
damage, rejected by the hit filter, and not counted at a control point. -/
theorem inactive_skipped_and_health_bounded_witness :
    zoneDamagePlayer zone1 msg0 downed0 [] = (downed0, []) ∧
    hitEligible true shot0 downed0 = false ∧
    countsPlayer cpHalf0 downed0 = false ∧
    (damagePlayer shot0 victim0).health ≤ victim0.health :=
  ⟨(inactive_skipped_and_health_bounded true shot0 zone1 msg0 [] cpHalf0 downed0
      victim0 [victim0] rfl (by norm_num [shot0]) (by norm_num [zone1])
      (by norm_num [victim0])).1,
   (inactive_skipped_and_health_bounded true shot0 zone1 msg0 [] cpHalf0 downed0
      victim0 [victim0] rfl (by norm_num [shot0]) (by norm_num [zone1])
      (by norm_num [victim0])).2.1,
   (inactive_skipped_and_health_bounded true shot0 zone1 msg0 [] cpHalf0 downed0
      victim0 [victim0] rfl (by norm_num [shot0]) (by norm_num [zone1])
      (by norm_num [victim0])).2.2.1,
   (inactive_skipped_and_health_bounded true shot0 zone1 msg0 [] cpHalf0 downed0
      victim0 [victim0] rfl (by norm_num [shot0]) (by norm_num [zone1])
      (by norm_num [victim0])).2.2.2.2.1⟩

/-- Witness for C2: the obstacle loop ignores the half cover around
coverShot0 but a full cover rectangle containing the same bullet position
deactivates it. -/
theorem bulletHitObstacles_blocking_spec_witness :
    bulletHitObstacles coverShot0 [halfCover0] = coverShot0 ∧
    (bulletHitObstacles coverShot0 [fullCover0]).active = false :=
  bulletHitObstacles_blocking_spec coverShot0 fullCover0 [] [halfCover0]
    (fun o ho => by rw [List.mem_singleton] at ho; rw [ho]; exact Or.inr rfl)
    (Or.inr rfl)
    (by norm_num [fullCover0, coverShot0]) (by norm_num [fullCover0, coverShot0])
    (by norm_num [fullCover0, coverShot0]) (by norm_num [fullCover0, coverShot0])

/-- Witness for C3: a handleKill elimination on a full feed of five stays
at five with the new message in front, while the zone death on the same
feed grows it to six. -/
theorem killFeed_update_spec_witness :
    (handleKillFeed msg0 feed5).head? = some msg0 ∧
    (handleKillFeed msg0 feed5).length ≤ 5 ∧
    (zoneDamagePlayer zone1 msg0 strayP0 feed5).2 = msg0 :: feed5 :=
  killFeed_update_spec msg0 feed5 zone1 strayP0 (by norm_num [feed5]) rfl
    (by norm_num [distGt, distSq, strayP0, zone1]) (by norm_num [strayP0, zone1])

end TacticalOps
